import Mathlib

/-!
Verification development for the repository's multi-tier date-resolution
engine.  The two date-pipeline scripts are shallowly embedded:

* namespace `Q4fgh` models the regex cascade `extract_date_from_text` of
  `Q4fgh.py` (the "step 4c date.py" section) together with the merge step of
  `run_wikipedia_approach`;
* namespace `Verifyparallel` models `verifyparallel.py`:
  `validate_year_in_range`, `extract_date_from_text`, the Wikipedia lookup
  functions with their shared `wiki_cache`, `parallel_lookup`, and the
  per-tier merge performed in `main`.

External libraries (datefinder, dateparser, the `wikipedia` package) are
uninterpreted: they enter as function parameters / a `WikiEnv` record, so
theorems quantify over their behaviour.  Python `datetime` values are
modelled by `PyDate` (time-of-day is dropped: the scripts only ever compare
and format dates, and `strftime("%Y-%m-%d")` ignores the time).
-/

set_option maxRecDepth 8000

/-! ### Configuration constants (identical in both scripts) -/

def DEFAULT_DATE : String := "2025-01-01"

def MIN_VALID_YEAR : Nat := 1800

def MAX_VALID_YEAR : Nat := 2024

/-! ### Characters, Python-style -/

/-- Python regex `\s` restricted to ASCII (all source inputs are ASCII). -/
def pySpace (c : Char) : Bool :=
  c = ' ' || c = '\t' || c = '\n' || c = '\r' || c = '\x0b' || c = '\x0c'

/-- Python regex `\w` restricted to ASCII. -/
def isWordChar (c : Char) : Bool :=
  c.isAlphanum || c = '_'

/-- Python `str.lower()` on ASCII text. -/
def pyLower (c : Char) : Char :=
  if 'A' ≤ c && c ≤ 'Z' then Char.ofNat (c.toNat + 32) else c

def digitVal (c : Char) : Nat := c.toNat - '0'.toNat

/-! ### Dates -/

/-- A Python `datetime`, truncated to its calendar date. -/
structure PyDate where
  year : Nat
  month : Nat
  day : Nat
deriving DecidableEq, Repr

/-- Python `datetime` comparison (lexicographic year, month, day). -/
def dateLe (a b : PyDate) : Bool :=
  decide (a.year < b.year ∨
    (a.year = b.year ∧ (a.month < b.month ∨ (a.month = b.month ∧ a.day ≤ b.day))))

def isLeapYear (y : Nat) : Bool :=
  decide (y % 4 = 0 ∧ (y % 100 ≠ 0 ∨ y % 400 = 0))

def daysInMonth (m y : Nat) : Nat :=
  if m = 2 then (if isLeapYear y then 29 else 28)
  else if m = 4 ∨ m = 6 ∨ m = 9 ∨ m = 11 then 30
  else 31

/-- pandas `Timestamp` range: dates outside 1677-09-21 .. 2262-04-11 make
`pd.to_datetime(..., errors="coerce")` produce `NaT` (1677-09-21 itself is
below the minimum timestamp, which falls mid-day). -/
def tsInBounds (d : PyDate) : Bool :=
  dateLe ⟨1677, 9, 22⟩ d && dateLe d ⟨2262, 4, 11⟩

/-- Zero-padded decimal digits, as in `strftime` / f-string year groups. -/
def padDigits (w n : Nat) : List Char :=
  let ds := Nat.toDigits 10 n
  List.replicate (w - ds.length) '0' ++ ds

/-- `strftime("%Y-%m-%d")`. -/
def fmtDate (d : PyDate) : String :=
  String.mk (padDigits 4 d.year ++ ('-' :: padDigits 2 d.month) ++ ('-' :: padDigits 2 d.day))

/-! ### Generic scanning machinery for the `re.search` models -/

/-- Match a literal character sequence, returning the remainder. -/
def matchLit : List Char → List Char → Option (List Char)
  | [], cs => some cs
  | _ :: _, [] => none
  | p :: ps, c :: cs => if c = p then matchLit ps cs else none

/-- Word boundary after a match: end of string or a non-word character. -/
def wordBoundary : List Char → Bool
  | [] => true
  | c :: _ => !isWordChar c

/-- `\s+` (greedy; every pattern continuation after it starts with a
non-space character, so greediness never needs backtracking). -/
def spaces1 : List Char → Option (List Char)
  | [] => none
  | c :: cs => if pySpace c then some (cs.dropWhile pySpace) else none

/-- `\d{4}` with the captured value. -/
def take4Digits : List Char → Option (Nat × List Char)
  | c1 :: c2 :: c3 :: c4 :: rest =>
    if c1.isDigit && c2.isDigit && c3.isDigit && c4.isDigit then
      some (digitVal c1 * 1000 + digitVal c2 * 100 + digitVal c3 * 10 + digitVal c4, rest)
    else none
  | _ => none

/-- `re.search` driver: try the pattern at every position whose left context
is a word boundary (all patterns below open with `\b` followed by a word
character), left-to-right, first success wins. -/
def searchAux {α : Type} (f : List Char → Option α) : Bool → List Char → Option α
  | _, [] => none
  | atB, c :: cs =>
    match (if atB then f (c :: cs) else none) with
    | some a => some a
    | none => searchAux f (!isWordChar c) cs

namespace Q4fgh

/-! ### `Q4fgh.py`, `extract_date_from_text` (lines 251-301): regex cascade -/

def monthNames : List (Nat × List Char) :=
  [(1, "january".data), (2, "february".data), (3, "march".data), (4, "april".data),
   (5, "may".data), (6, "june".data), (7, "july".data), (8, "august".data),
   (9, "september".data), (10, "october".data), (11, "november".data), (12, "december".data)]

def matchMonthAux : List (Nat × List Char) → List Char → Option (Nat × List Char)
  | [], _ => none
  | (i, name) :: rest, cs =>
    match matchLit name cs with
    | some cs' => some (i, cs')
    | none => matchMonthAux rest cs

/-- The month alternation of patterns 1 and 2 (no month name is a prefix of
another, so alternation order never matters). -/
def matchMonth (cs : List Char) : Option (Nat × List Char) :=
  matchMonthAux monthNames cs

/-- `(?:st|nd|rd|th)?` -/
def matchOrdSuffix (cs : List Char) : Option (List Char) :=
  match matchLit "st".data cs with
  | some r => some r
  | none =>
    match matchLit "nd".data cs with
    | some r => some r
    | none =>
      match matchLit "rd".data cs with
      | some r => some r
      | none => matchLit "th".data cs

/-- `,?\s+(\d{4})\b` (consuming an optional comma deterministically is
faithful: if the comma is present, the no-comma alternative would fail on
the comma character, which is neither `\s` nor a digit). -/
def commaThenYear (cs : List Char) : Option (Nat × List Char) :=
  let cs1 := match cs with
    | ',' :: r => r
    | _ => cs
  match spaces1 cs1 with
  | none => none
  | some cs2 =>
    match take4Digits cs2 with
    | none => none
    | some (y, cs3) => if wordBoundary cs3 then some (y, cs3) else none

/-- `(?:st|nd|rd|th)?,?\s+(\d{4})\b`, with regex backtracking on the
optional suffix. -/
def afterDayDigits (cs : List Char) : Option (Nat × List Char) :=
  match matchOrdSuffix cs with
  | some cs' =>
    match commaThenYear cs' with
    | some r => some r
    | none => commaThenYear cs
  | none => commaThenYear cs

/-- `\d{1,2}` (greedy, with backtracking) followed by `afterDayDigits`;
returns day, year. -/
def dayThenYear : List Char → Option (Nat × Nat × List Char)
  | [] => none
  | c1 :: rest1 =>
    if c1.isDigit then
      let two :=
        match rest1 with
        | c2 :: rest2 =>
          if c2.isDigit then
            (afterDayDigits rest2).map
              (fun (p : Nat × List Char) => (digitVal c1 * 10 + digitVal c2, p.1, p.2))
          else none
        | [] => none
      match two with
      | some r => some r
      | none =>
        (afterDayDigits rest1).map (fun (p : Nat × List Char) => (digitVal c1, p.1, p.2))
    else none

/-- Pattern 1 body at one position: month name, `\s+`, day, suffix/comma,
year.  Returns (month, day, year). -/
def ordinalAt (cs : List Char) : Option (Nat × Nat × Nat) :=
  match matchMonth cs with
  | none => none
  | some (m, cs1) =>
    match spaces1 cs1 with
    | none => none
    | some cs2 => (dayThenYear cs2).map (fun t => (m, t.1, t.2.1))

/-- `re.search` of pattern 1 (ordinal dates, e.g. "october 3rd, 1995"). -/
def ordinal_match (cs : List Char) : Option (Nat × Nat × Nat) :=
  searchAux ordinalAt true cs

/-- Pattern 2 body: month name, `\s+`, `\d{4}`, `\b`. -/
def monthYearAt (cs : List Char) : Option (Nat × Nat) :=
  match matchMonth cs with
  | none => none
  | some (m, cs1) =>
    match spaces1 cs1 with
    | none => none
    | some cs2 =>
      match take4Digits cs2 with
      | none => none
      | some (y, cs3) => if wordBoundary cs3 then some (m, y) else none

/-- `re.search` of pattern 2 ("Month YYYY"). -/
def month_year_match (cs : List Char) : Option (Nat × Nat) :=
  searchAux monthYearAt true cs

/-- `(?:in|since|from)` (first characters differ, so alternation is
deterministic). -/
def kwMatch (cs : List Char) : Option (List Char) :=
  match matchLit "in".data cs with
  | some r => some r
  | none =>
    match matchLit "since".data cs with
    | some r => some r
    | none => matchLit "from".data cs

/-- Pattern 3 body: `(?:in|since|from)\s+(\d{4})\b`. -/
def explicitYearAt (cs : List Char) : Option Nat :=
  match kwMatch cs with
  | none => none
  | some cs1 =>
    match spaces1 cs1 with
    | none => none
    | some cs2 =>
      match take4Digits cs2 with
      | none => none
      | some (y, cs3) => if wordBoundary cs3 then some y else none

/-- `re.search` of pattern 3 ("in/since/from YYYY"). -/
def explicit_year_match (cs : List Char) : Option Nat :=
  searchAux explicitYearAt true cs

/-- Pattern 4 body: `(1[8-9]\d{2}|20\d{2})\b`. -/
def bareYearAt : List Char → Option Nat
  | c1 :: c2 :: c3 :: c4 :: rest =>
    if ((c1 = '1' && (c2 = '8' || c2 = '9')) || (c1 = '2' && c2 = '0'))
        && c3.isDigit && c4.isDigit then
      if wordBoundary rest then
        some (digitVal c1 * 1000 + digitVal c2 * 100 + digitVal c3 * 10 + digitVal c4)
      else none
    else none
  | _ => none

/-- `re.search` of pattern 4 (standalone 4-digit year `18xx|19xx|20xx`). -/
def year_match (cs : List Char) : Option Nat :=
  searchAux bareYearAt true cs

/-- `pd.to_datetime(ordinal_match.group(0), errors="coerce")`: the matched
text has the rigid shape "month day[suffix][,] year", which dateutil parses
to (year, month, day); it yields `NaT` exactly when the day is invalid for
the month or the timestamp is out of range. -/
def to_datetime_ordinal (m d y : Nat) : Option PyDate :=
  if 1 ≤ d && d ≤ daysInMonth m y && tsInBounds ⟨y, m, d⟩ then some ⟨y, m, d⟩ else none

/-- `pd.to_datetime(month_year_match.group(0), format="%B %Y", errors="coerce")`
(day defaults to 1; `strptime` month-name matching is case-insensitive and
format whitespace matches runs of whitespace). -/
def to_datetime_month_year (m y : Nat) : Option PyDate :=
  if tsInBounds ⟨y, m, 1⟩ then some ⟨y, m, 1⟩ else none

/-- `extract_date_from_text` of `Q4fgh.py`, split so that `some` marks a
genuinely extracted date (one of the five rules produced the result) and
`none` the fall-through.  `find_dates` is the uninterpreted
`datefinder.find_dates` (the source applies it to the lowercased text and
keeps `matches[0]`). -/
def extract_date_core (find_dates : String → List PyDate) (text : String) : Option String :=
  if text.data.all pySpace then none
  else
    let tl := text.data.map pyLower
    match (ordinal_match tl).bind (fun t => (to_datetime_ordinal t.1 t.2.1 t.2.2).map fmtDate) with
    | some s => some s
    | none =>
      match (month_year_match tl).bind (fun t => (to_datetime_month_year t.1 t.2).map fmtDate) with
      | some s => some s
      | none =>
        match explicit_year_match tl with
        | some y => some (String.mk (padDigits 4 y ++ "-01-01".data))
        | none =>
          match year_match tl with
          | some y => some (String.mk (padDigits 4 y ++ "-01-01".data))
          | none =>
            match find_dates (String.mk tl) with
            | d :: _ => some (fmtDate d)
            | [] => none

/-- `extract_date_from_text` of `Q4fgh.py`: the cascade, else `DEFAULT_DATE`. -/
def extract_date_from_text (find_dates : String → List PyDate) (text : String) : String :=
  (extract_date_core find_dates text).getD DEFAULT_DATE

/-! ### `Q4fgh.py`, `run_wikipedia_approach` (lines 304-336): merge step -/

end Q4fgh

namespace Verifyparallel

/-! ### `verifyparallel.py`, `validate_year_in_range` (lines 35-43) -/

/-- `strptime` `%m` field: regex `1[0-2]|0[1-9]|[1-9]` (the deterministic
two-digit-first reading is equivalent to regex backtracking here: when two
digits match, the one-digit alternative leaves a digit where the following
literal "-" is required). -/
def parseMonth2 : List Char → Option (Nat × List Char)
  | c1 :: c2 :: rest =>
    if c1 = '1' && ('0' ≤ c2 && c2 ≤ '2') then some (10 + digitVal c2, rest)
    else if c1 = '0' && ('1' ≤ c2 && c2 ≤ '9') then some (digitVal c2, rest)
    else if '1' ≤ c1 && c1 ≤ '9' then some (digitVal c1, c2 :: rest)
    else none
  | [c1] => if '1' ≤ c1 && c1 ≤ '9' then some (digitVal c1, []) else none
  | [] => none

/-- `strptime` `%d` field: regex `3[01]|[12]\d|0[1-9]|[1-9]`. -/
def parseDay2 : List Char → Option (Nat × List Char)
  | c1 :: c2 :: rest =>
    if c1 = '3' && (c2 = '0' || c2 = '1') then some (30 + digitVal c2, rest)
    else if (c1 = '1' || c1 = '2') && c2.isDigit then some (digitVal c1 * 10 + digitVal c2, rest)
    else if c1 = '0' && ('1' ≤ c2 && c2 ≤ '9') then some (digitVal c2, rest)
    else if '1' ≤ c1 && c1 ≤ '9' then some (digitVal c1, c2 :: rest)
    else none
  | [c1] => if '1' ≤ c1 && c1 ≤ '9' then some (digitVal c1, []) else none
  | [] => none

/-- `datetime.strptime(s, "%Y-%m-%d")`: `%Y` is exactly four digits, the
whole string must be consumed, and the `datetime` constructor then rejects
year 0 and days beyond the month length. -/
def strptimeYMD (cs : List Char) : Option PyDate :=
  match take4Digits cs with
  | none => none
  | some (y, cs1) =>
    match cs1 with
    | '-' :: cs2 =>
      match parseMonth2 cs2 with
      | none => none
      | some (m, cs3) =>
        match cs3 with
        | '-' :: cs4 =>
          match parseDay2 cs4 with
          | none => none
          | some (d, cs5) =>
            if cs5.isEmpty then
              if 1 ≤ y && d ≤ daysInMonth m y then some ⟨y, m, d⟩ else none
            else none
        | _ => none
    | _ => none

/-- `validate_year_in_range` of `verifyparallel.py`. -/
def validate_year_in_range (date_str : String) : Bool :=
  match strptimeYMD date_str.data with
  | some d => decide (MIN_VALID_YEAR ≤ d.year ∧ d.year ≤ MAX_VALID_YEAR)
  | none => false

/-! ### `verifyparallel.py`, `extract_date_from_text` (lines 45-72) -/

/-- Stable ascending insertion, i.e. Python `sorted` on datetimes (stable
sorts with the same comparator agree). -/
def insertSorted (a : PyDate) : List PyDate → List PyDate
  | [] => [a]
  | b :: bs => if dateLe a b then a :: b :: bs else b :: insertSorted a bs

def sortDates : List PyDate → List PyDate
  | [] => []
  | a :: as => insertSorted a (sortDates as)

/-- The `for d in df_dates_sorted: if validate_year_in_range(...): return`
loop: first element of the sorted list whose formatted date validates. -/
def firstValid (l : List PyDate) : Option PyDate :=
  l.find? (fun d => validate_year_in_range (fmtDate d))

/-- `extract_date_from_text` of `verifyparallel.py`, split so that `some`
marks a date produced by the datefinder pass or the dateparser fallback and
`none` the fall-through to `DEFAULT_DATE`.  `find_dates` and
`dateparser_parse` are the uninterpreted external parsers (datetimes
modelled by their calendar date; `replace(tzinfo=None)` is the identity
there). -/
def extract_date_core (find_dates : String → List PyDate)
    (dateparser_parse : String → Option PyDate) (text : String) : Option String :=
  if text.data.all pySpace then none
  else
    match firstValid (sortDates (find_dates text)) with
    | some d => some (fmtDate d)
    | none =>
      match dateparser_parse text with
      | some d =>
        if validate_year_in_range (fmtDate d) then some (fmtDate d) else none
      | none => none

/-- `extract_date_from_text` of `verifyparallel.py`. -/
def extract_date_from_text (find_dates : String → List PyDate)
    (dateparser_parse : String → Option PyDate) (text : String) : String :=
  (extract_date_core find_dates dateparser_parse text).getD DEFAULT_DATE

/-! ### `verifyparallel.py`, the Wikipedia lookups and their shared cache -/

/-- Python `dict` membership/read on `wiki_cache`, modelled as an
association list where insertion prepends (the scripts never overwrite an
existing key, so first match is the current binding). -/
def lookupD : List (String × String) → String → Option String
  | [], _ => none
  | (k', v) :: rest, k => if k' = k then some v else lookupD rest k

/-- The external `wikipedia` package plus the two uninterpreted text
parsers used by `extract_date_from_text`.  `page t = none` models
`wikipedia.page(title)` raising (the bare `except: pass`). -/
structure WikiEnv where
  search : String → List String
  page : String → Option (String × String)
  find_dates : String → List PyDate
  dateparser_parse : String → Option PyDate

def generate_narrow_search_terms (location : String) : List String :=
  [location ++ " history", "history of " ++ location, location ++ " founding",
   location ++ " historical", location ++ " establishment"]

/-- Python substring test (`pat in s`). -/
def containsSub (pat : List Char) : List Char → Bool
  | [] => pat.isEmpty
  | c :: cs => pat.isPrefixOf (c :: cs) || containsSub pat cs

/-- `"may refer to:" in page.summary.lower() or "disambiguation" in
page.title.lower()` (narrow lookup, line 106). -/
def narrowDisambig (ptitle psummary : String) : Bool :=
  containsSub "may refer to:".data (psummary.data.map pyLower) ||
    containsSub "disambiguation".data (ptitle.data.map pyLower)

/-- `"disambiguation" in page.title.lower() or "may refer to:" in
page.summary.lower()` (broad lookup, line 143). -/
def broadDisambig (ptitle psummary : String) : Bool :=
  containsSub "disambiguation".data (ptitle.data.map pyLower) ||
    containsSub "may refer to:".data (psummary.data.map pyLower)

/-- The `for title in results[:2]` body shared by both lookups: fetch the
page, skip failures and disambiguation pages, extract a date from the
summary, and keep it when it is not `DEFAULT_DATE`. -/
def pageDates (env : WikiEnv) (disambig : String → String → Bool)
    (titles : List String) : List String :=
  (titles.take 2).foldl
    (fun acc title =>
      match env.page title with
      | none => acc
      | some (ptitle, psummary) =>
        if disambig ptitle psummary then acc
        else
          let found := extract_date_from_text env.find_dates env.dateparser_parse psummary
          if found = DEFAULT_DATE then acc else acc ++ [found])
    []

/-- The narrow query loop: `possible_dates` stays empty until the first
query whose top-2 pages yield a date, and the loop breaks there.  Returns
the collected dates and the queries actually issued to `wikipedia.search`. -/
def collectNarrow (env : WikiEnv) : List String → List String × List String
  | [] => ([], [])
  | q :: qs =>
    let results := env.search q
    if results.isEmpty then
      let r := collectNarrow env qs
      (r.1, q :: r.2)
    else
      let pd := pageDates env narrowDisambig results
      if pd.isEmpty then
        let r := collectNarrow env qs
        (r.1, q :: r.2)
      else (pd, [q])

/-- Python `min` over a nonempty list of date strings (lexicographic string
order; ties keep the earlier element, which is the same string anyway). -/
def minString (x : String) (xs : List String) : String :=
  xs.foldl (fun a b => if b < a then b else a) x

/-- `narrow_wikipedia_lookup_one` (lines 86-126), sequentialized: takes and
returns the `wiki_cache`, and additionally reports the list of queries it
issued to the external source (empty on a cache hit). -/
def narrow_wikipedia_lookup_one (env : WikiEnv) (cache : List (String × String))
    (location : String) : String × List (String × String) × List String :=
  match lookupD cache location with
  | some v => (v, cache, [])
  | none =>
    let r := collectNarrow env (generate_narrow_search_terms location)
    match r.1 with
    | [] => (DEFAULT_DATE, (location, DEFAULT_DATE) :: cache, r.2)
    | p :: ps =>
      let best := minString p ps
      (best, (location, best) :: cache, r.2)

/-- `broad_wikipedia_lookup_one` (lines 128-159), sequentialized likewise;
its single generic query is the raw location key. -/
def broad_wikipedia_lookup_one (env : WikiEnv) (cache : List (String × String))
    (location : String) : String × List (String × String) × List String :=
  match lookupD cache location with
  | some v => (v, cache, [])
  | none =>
    let results := env.search location
    let pd := if results.isEmpty then [] else pageDates env broadDisambig results
    match pd with
    | [] => (DEFAULT_DATE, (location, DEFAULT_DATE) :: cache, [location])
    | p :: ps =>
      let best := minString p ps
      (best, (location, best) :: cache, [location])

/-- One tier run: `parallel_lookup` applied to
`narrow_wikipedia_lookup_one`, sequentialized (the scheduler provides no
ordering guarantee and `main` deduplicates the submitted keys, so a
sequential fold over the key list is an admissible linearization).
Returns the results map, the final cache, and the log of keys for which
external queries were issued. -/
def run_narrow_tier (env : WikiEnv) :
    List String → List (String × String) →
      List (String × String) × List (String × String) × List String
  | [], cache => ([], cache, [])
  | k :: ks, cache =>
    let one := narrow_wikipedia_lookup_one env cache k
    let rest := run_narrow_tier env ks one.2.1
    ((k, one.1) :: rest.1, rest.2.1, (if one.2.2.isEmpty then [] else [k]) ++ rest.2.2)

def countKey (k : String) : List String → Nat
  | [] => 0
  | x :: xs => (if x = k then 1 else 0) + countKey k xs

/-! ### `verifyparallel.py`, `parallel_lookup` (lines 161-187) -/

/-- `parallel_lookup`, sequentialized: the lookup function may fail
(`Except.error` models an exception escaping `lookup_func`), and the
per-future `try/except` maps exactly the failing key to `DEFAULT_DATE`. -/
def parallel_lookup (lookup_func : String → Except Unit String) :
    List String → List (String × String)
  | [] => []
  | loc :: locs =>
    (loc,
      match lookup_func loc with
      | Except.ok v => v
      | Except.error _ => DEFAULT_DATE) :: parallel_lookup lookup_func locs

/-! ### `verifyparallel.py`, `main` (lines 203-306): per-tier merge -/

/-- A row as the merge lambdas see it (`location` NaN is `none`). -/
structure VRow where
  location : Option String
  localDate : String
deriving DecidableEq

/-- `results.get(row["location"], DEFAULT_DATE)`: a NaN location is never a
key of the results dict. -/
def getOrDefault (m : List (String × String)) (loc : Option String) : String :=
  match loc with
  | some l => (lookupD m l).getD DEFAULT_DATE
  | none => DEFAULT_DATE

/-- The merge lambda of lines 245-249 and 281-285:
`results.get(location, DEFAULT_DATE) if prior == DEFAULT_DATE else prior`. -/
def mergeDate (prior : String) (m : List (String × String)) (loc : Option String) : String :=
  if prior = DEFAULT_DATE then getOrDefault m loc else prior

/-- The "NarrowWikiDate" column. -/
def narrowWikiDate (narrow_results : List (String × String)) (r : VRow) : String :=
  mergeDate r.localDate narrow_results r.location

/-- The "BroadWikiDate" column. -/
def broadWikiDate (narrow_results broad_results : List (String × String)) (r : VRow) : String :=
  mergeDate (narrowWikiDate narrow_results r) broad_results r.location

/-- The "FinalDate" column (`USE_BROADER_APPROACH = True`, line 286). -/
def finalDate (narrow_results broad_results : List (String × String)) (r : VRow) : String :=
  broadWikiDate narrow_results broad_results r

end Verifyparallel

/-! ### Concrete oracle instances used by witnesses and counterexamples -/

/-- datefinder finding nothing. -/
def fdNone : String → List PyDate := fun _ => []

/-- dateparser finding nothing. -/
def dpNone : String → Option PyDate := fun _ => none

/-- datefinder finding a single date in any text. -/
def fdOne (d : PyDate) : String → List PyDate := fun _ => [d]

/-- datefinder on "05/12/23 and 03/02/01": candidates in text order, the
later one chronologically earlier. -/
def fdSlash : String → List PyDate := fun _ => [⟨2023, 5, 12⟩, ⟨2001, 3, 2⟩]

/-- datefinder finding a recent and an old in-range date, recent first. -/
def fdTwo : String → List PyDate := fun _ => [⟨2023, 5, 12⟩, ⟨1901, 2, 3⟩]

/-- A Wikipedia world in which searching the raw key "Springfield Township"
finds a page whose summary yields 1901-02-03, while all five narrow
templated queries find nothing. -/
def envSpringfield : Verifyparallel.WikiEnv where
  search := fun q => if q = "Springfield Township" then ["Springfield"] else []
  page := fun t =>
    if t = "Springfield" then some ("Springfield", "Founded February 3, 1901.") else none
  find_dates := fun _ => [⟨1901, 2, 3⟩]
  dateparser_parse := fun _ => none

/-- A Wikipedia world in which every search comes back empty. -/
def envEmpty : Verifyparallel.WikiEnv where
  search := fun _ => []
  page := fun _ => none
  find_dates := fun _ => []
  dateparser_parse := fun _ => none

/-- A lookup function that raises on the key "bad" and succeeds elsewhere. -/
def lookupC9 : String → Except Unit String :=
  fun s => if s = "bad" then Except.error () else Except.ok "1902-03-04"

theorem dateLe_refl (a : PyDate) : dateLe a a = true := by
  unfold dateLe
  exact decide_eq_true (Or.inr ⟨rfl, Or.inr ⟨rfl, Nat.le_refl _⟩⟩)

theorem dateLe_total (a b : PyDate) : dateLe a b = true ∨ dateLe b a = true := by
  simp only [dateLe, decide_eq_true_eq]
  omega

theorem dateLe_trans {a b c : PyDate} (h1 : dateLe a b = true) (h2 : dateLe b c = true) :
    dateLe a c = true := by
  simp only [dateLe, decide_eq_true_eq] at h1 h2 ⊢
  omega

theorem mem_insertSorted (x a : PyDate) (l : List PyDate) :
    x ∈ Verifyparallel.insertSorted a l ↔ x = a ∨ x ∈ l := by
  induction l with
  | nil => simp [Verifyparallel.insertSorted]
  | cons b bs ih =>
    by_cases h : dateLe a b
    · simp [Verifyparallel.insertSorted, h]
    · simp only [Verifyparallel.insertSorted, h, Bool.false_eq_true, if_false,
        List.mem_cons, ih]
      tauto

theorem pairwise_insertSorted (a : PyDate) (l : List PyDate)
    (h : l.Pairwise (fun x y => dateLe x y = true)) :
    (Verifyparallel.insertSorted a l).Pairwise (fun x y => dateLe x y = true) := by
  induction l with
  | nil => simp [Verifyparallel.insertSorted]
  | cons b bs ih =>
    rcases List.pairwise_cons.1 h with ⟨hb, hbs⟩
    by_cases hab : dateLe a b
    · unfold Verifyparallel.insertSorted
      rw [if_pos hab]
      refine List.pairwise_cons.2 ⟨?_, h⟩
      intro x hx
      rcases List.mem_cons.1 hx with rfl | hx
      · exact hab
      · exact dateLe_trans hab (hb x hx)
    · unfold Verifyparallel.insertSorted
      rw [if_neg hab]
      refine List.pairwise_cons.2 ⟨?_, ih hbs⟩
      intro x hx
      rcases (mem_insertSorted x a bs).1 hx with rfl | hx
      · cases dateLe_total x b with
        | inl h1 => exact absurd h1 hab
        | inr h2 => exact h2
      · exact hb x hx

theorem pairwise_sortDates (l : List PyDate) :
    (Verifyparallel.sortDates l).Pairwise (fun x y => dateLe x y = true) := by
  induction l with
  | nil => simp [Verifyparallel.sortDates]
  | cons a as ih => exact pairwise_insertSorted a _ ih

theorem mem_sortDates (x : PyDate) (l : List PyDate) :
    x ∈ Verifyparallel.sortDates l ↔ x ∈ l := by
  induction l with
  | nil => simp [Verifyparallel.sortDates]
  | cons a as ih => simp [Verifyparallel.sortDates, mem_insertSorted, ih]

theorem find?_first_min (p : PyDate → Bool) (l : List PyDate)
    (hp : l.Pairwise (fun x y => dateLe x y = true)) (d : PyDate)
    (h : l.find? p = some d) :
    d ∈ l ∧ p d = true ∧ ∀ x ∈ l, p x = true → dateLe d x = true := by
  induction l with
  | nil => simp [List.find?] at h
  | cons a l ih =>
    rcases List.pairwise_cons.1 hp with ⟨ha, hl⟩
    by_cases hpa : p a
    · rw [List.find?_cons_of_pos _ hpa] at h
      injection h with h
      subst h
      refine ⟨List.mem_cons_self a l, hpa, ?_⟩
      intro x hx _
      rcases List.mem_cons.1 hx with rfl | hx
      · exact dateLe_refl x
      · exact ha x hx
    · rw [List.find?_cons_of_neg _ (by simpa using hpa)] at h
      obtain ⟨hmem, hpd, hmin⟩ := ih hl h
      refine ⟨List.mem_cons_of_mem _ hmem, hpd, ?_⟩
      intro x hx hpx
      rcases List.mem_cons.1 hx with rfl | hx
      · exact absurd hpx hpa
      · exact hmin x hx hpx

theorem find?_isSome_of_mem (p : PyDate → Bool) (l : List PyDate) (x : PyDate)
    (hx : x ∈ l) (hpx : p x = true) : ∃ d, l.find? p = some d := by
  cases h : l.find? p with
  | some d => exact ⟨d, rfl⟩
  | none => exact absurd hpx (by simpa using List.find?_eq_none.1 h x hx)

/-- Anything the `verifyparallel.py` extractor genuinely extracts passed
`validate_year_in_range`. -/
theorem extract_core_valid (fd : String → List PyDate) (dp : String → Option PyDate)
    (t s : String) (h : Verifyparallel.extract_date_core fd dp t = some s) :
    Verifyparallel.validate_year_in_range s = true := by
  unfold Verifyparallel.extract_date_core at h
  split at h
  · cases h
  · split at h
    · next d hf =>
        injection h with h
        subst h
        unfold Verifyparallel.firstValid at hf
        simpa using List.find?_some hf
    · split at h
      · next d _ =>
          split at h
          · next hv =>
              injection h with h
              subst h
              exact hv
          · cases h
      · cases h

/-! ## Claims -/

/-- C1 (amended): for the `verifyparallel.py` local extractor the claim
holds — every genuinely extracted date (a `some` result of the extraction
core) passed year-range validation and therefore differs from the sentinel
`DEFAULT_DATE`, whose year 2025 fails that validation.  The `Q4fgh.py`
cascade violates the claim as stated: see the counterexample. -/
theorem sentinel_distinguishable (fd : String → List PyDate)
    (dp : String → Option PyDate) (t s : String)
    (h : Verifyparallel.extract_date_core fd dp t = some s) :
    s ≠ DEFAULT_DATE := by
  have hv := extract_core_valid fd dp t s h
  intro he
  rw [he] at hv
  have hfalse : Verifyparallel.validate_year_in_range DEFAULT_DATE = false := by decide
  rw [hfalse] at hv
  cases hv

/-- Witness for C1: a concrete extraction that is distinct from the sentinel. -/
theorem sentinel_distinguishable_witness :
    Verifyparallel.extract_date_core (fdOne ⟨1902, 3, 4⟩) dpNone "y" = some "1902-03-04" ∧
    ("1902-03-04" : String) ≠ DEFAULT_DATE :=
  ⟨rfl, sentinel_distinguishable (fdOne ⟨1902, 3, 4⟩) dpNone "y" "1902-03-04" rfl⟩

/-- Counterexample to C1 as stated: on "in 2025" the `Q4fgh.py` cascade
genuinely extracts a date via rule 3 (the extraction core returns `some`),
yet the returned string equals the sentinel `DEFAULT_DATE`. -/
theorem sentinel_collision_counterexample :
    Q4fgh.extract_date_core fdNone "in 2025" = some DEFAULT_DATE := rfl

/-- C2 (amended): the `verifyparallel.py` extractor enforces the year range
— every extracted date validates against `[MIN_VALID_YEAR, MAX_VALID_YEAR]`,
and on single-candidate inputs the boundary years behave as the claim
states: 1799 and 2025 are rejected (sentinel returned), 1800 and 2024 are
accepted.  The `Q4fgh.py` cascade violates the claim as stated: see the
counterexample. -/
theorem range_enforcement (fd : String → List PyDate) (dp : String → Option PyDate)
    (t s : String) (h : Verifyparallel.extract_date_core fd dp t = some s) :
    Verifyparallel.validate_year_in_range s = true ∧
    Verifyparallel.extract_date_from_text (fdOne ⟨1799, 1, 1⟩) dpNone "x" = DEFAULT_DATE ∧
    Verifyparallel.extract_date_from_text (fdOne ⟨1800, 1, 1⟩) dpNone "x" = "1800-01-01" ∧
    Verifyparallel.extract_date_from_text (fdOne ⟨2024, 1, 1⟩) dpNone "x" = "2024-01-01" ∧
    Verifyparallel.extract_date_from_text (fdOne ⟨2025, 1, 1⟩) dpNone "x" = DEFAULT_DATE :=
  ⟨extract_core_valid fd dp t s h, rfl, rfl, rfl, rfl⟩

/-- Witness for C2. -/
theorem range_enforcement_witness :
    Verifyparallel.validate_year_in_range "1901-02-03" = true ∧
    Verifyparallel.extract_date_from_text (fdOne ⟨1799, 1, 1⟩) dpNone "x" = DEFAULT_DATE ∧
    Verifyparallel.extract_date_from_text (fdOne ⟨1800, 1, 1⟩) dpNone "x" = "1800-01-01" ∧
    Verifyparallel.extract_date_from_text (fdOne ⟨2024, 1, 1⟩) dpNone "x" = "2024-01-01" ∧
    Verifyparallel.extract_date_from_text (fdOne ⟨2025, 1, 1⟩) dpNone "x" = DEFAULT_DATE :=
  range_enforcement (fdOne ⟨1901, 2, 3⟩) dpNone "x" "1901-02-03" rfl

/-- Counterexample to C2 as stated: on "in 1799" the `Q4fgh.py` cascade
returns "1799-01-01" — a year outside `[1800, 2024]` — instead of the
Unresolved sentinel. -/
theorem range_enforcement_counterexample :
    Q4fgh.extract_date_core fdNone "in 1799" = some "1799-01-01" ∧
    Verifyparallel.validate_year_in_range "1799-01-01" = false ∧
    Q4fgh.extract_date_from_text fdNone "in 1799" ≠ DEFAULT_DATE :=
  ⟨rfl, rfl, by decide⟩

/-- C7: cascade priority of the `Q4fgh.py` local extractor.  Whenever the
full ordinal-date rule matches and parses (even if the text also contains a
bare 4-digit year, which would match rule 4), the extractor returns the
ordinal date; "March 2020" yields 2020-03-01 and "in 1995" yields
1995-01-01, for every datefinder behaviour. -/
theorem cascade_priority (fd : String → List PyDate) (t : String) (m d y : Nat) (dt : PyDate)
    (hne : t.data.all pySpace = false)
    (h1 : Q4fgh.ordinal_match (t.data.map pyLower) = some (m, d, y))
    (h2 : Q4fgh.to_datetime_ordinal m d y = some dt)
    (_hbare : (Q4fgh.year_match (t.data.map pyLower)).isSome = true) :
    Q4fgh.extract_date_from_text fd t = fmtDate dt ∧
    Q4fgh.extract_date_from_text fd "March 2020" = "2020-03-01" ∧
    Q4fgh.extract_date_from_text fd "in 1995" = "1995-01-01" := by
  refine ⟨?_, rfl, rfl⟩
  unfold Q4fgh.extract_date_from_text Q4fgh.extract_date_core
  simp [hne, h1, h2]

/-- Witness for C7: "October 3rd, 1995 and 1847" contains both an ordinal
full date and a bare 4-digit year; the full date wins. -/
theorem cascade_priority_witness :
    Q4fgh.extract_date_from_text fdNone "October 3rd, 1995 and 1847" = "1995-10-03" ∧
    Q4fgh.extract_date_from_text fdNone "March 2020" = "2020-03-01" ∧
    Q4fgh.extract_date_from_text fdNone "in 1995" = "1995-01-01" :=
  cascade_priority fdNone "October 3rd, 1995 and 1847" 10 3 1995 ⟨1995, 10, 3⟩
    rfl rfl rfl rfl

/-- C8 (amended): for the `verifyparallel.py` extractor the claim holds —
whenever the free-text parser (datefinder) produces any candidate whose
year validates, the extractor returns the earliest (minimal) such
candidate.  The `Q4fgh.py` datefinder fallback instead returns the first
candidate in text order without a range check: see the counterexample. -/
theorem earliest_valid_candidate (fd : String → List PyDate) (dp : String → Option PyDate)
    (t : String) (d0 : PyDate)
    (hne : t.data.all pySpace = false)
    (h0 : d0 ∈ fd t)
    (hv0 : Verifyparallel.validate_year_in_range (fmtDate d0) = true) :
    ∃ d, d ∈ fd t ∧ Verifyparallel.validate_year_in_range (fmtDate d) = true ∧
      (∀ x ∈ fd t, Verifyparallel.validate_year_in_range (fmtDate x) = true →
        dateLe d x = true) ∧
      Verifyparallel.extract_date_from_text fd dp t = fmtDate d := by
  have hmem : d0 ∈ Verifyparallel.sortDates (fd t) := (mem_sortDates d0 (fd t)).2 h0
  obtain ⟨d, hfind⟩ :=
    find?_isSome_of_mem (fun x => Verifyparallel.validate_year_in_range (fmtDate x))
      (Verifyparallel.sortDates (fd t)) d0 hmem hv0
  obtain ⟨hdmem, hpd, hmin⟩ :=
    find?_first_min (fun x => Verifyparallel.validate_year_in_range (fmtDate x))
      (Verifyparallel.sortDates (fd t)) (pairwise_sortDates (fd t)) d hfind
  refine ⟨d, (mem_sortDates d (fd t)).1 hdmem, hpd, ?_, ?_⟩
  · intro x hx hpx
    exact hmin x ((mem_sortDates x (fd t)).2 hx) hpx
  · unfold Verifyparallel.extract_date_from_text Verifyparallel.extract_date_core
    simp [hne, Verifyparallel.firstValid, hfind]

/-- Witness for C8: datefinder returns a recent date first and an older
in-range date second; the extractor picks the older one. -/
theorem earliest_valid_candidate_witness :
    ∃ d, d ∈ fdTwo "y" ∧ Verifyparallel.validate_year_in_range (fmtDate d) = true ∧
      (∀ x ∈ fdTwo "y", Verifyparallel.validate_year_in_range (fmtDate x) = true →
        dateLe d x = true) ∧
      Verifyparallel.extract_date_from_text fdTwo dpNone "y" = fmtDate d :=
  earliest_valid_candidate fdTwo dpNone "y" ⟨1901, 2, 3⟩ rfl (by decide) rfl

/-- Counterexample to C8 as stated: the `Q4fgh.py` datefinder fallback on
"05/12/23 and 03/02/01" (no cascade rule matches) returns the first
candidate 2023-05-12 even though 2001-03-02 is an earlier candidate whose
year also lies in the valid range. -/
theorem earliest_valid_counterexample :
    Q4fgh.extract_date_from_text fdSlash "05/12/23 and 03/02/01" = "2023-05-12" ∧
    (⟨2001, 3, 2⟩ : PyDate) ∈ fdSlash "05/12/23 and 03/02/01" ∧
    Verifyparallel.validate_year_in_range "2001-03-02" = true ∧
    Verifyparallel.validate_year_in_range "2023-05-12" = true ∧
    dateLe ⟨2001, 3, 2⟩ ⟨2023, 5, 12⟩ = true ∧
    Q4fgh.extract_date_from_text fdSlash "05/12/23 and 03/02/01" ≠ "2001-03-02" :=
  ⟨rfl, by decide, rfl, rfl, by decide, by decide⟩

/-- C6: the per-tier merge rule — the merged date is the prior-tier date
whenever that is not the sentinel, and the tier's lookup result otherwise;
consequently a row whose narrow-tier date is resolved keeps exactly that
date as its FinalDate, whatever the broad tier returned. -/
theorem merge_monotonic (p : String) (m mN mB : List (String × String))
    (loc : Option String) (r : Verifyparallel.VRow)
    (hp : p ≠ DEFAULT_DATE)
    (h : Verifyparallel.narrowWikiDate mN r ≠ DEFAULT_DATE) :
    Verifyparallel.mergeDate p m loc = p ∧
    (∀ (m' : List (String × String)) (loc' : Option String),
      Verifyparallel.mergeDate DEFAULT_DATE m' loc' = Verifyparallel.getOrDefault m' loc') ∧
    Verifyparallel.finalDate mN mB r = Verifyparallel.narrowWikiDate mN r := by
  refine ⟨by simp [Verifyparallel.mergeDate, hp],
    fun m' loc' => by simp [Verifyparallel.mergeDate], ?_⟩
  unfold Verifyparallel.finalDate Verifyparallel.broadWikiDate Verifyparallel.mergeDate
  rw [if_neg h]

/-- Witness for C6: a row resolved by the narrow tier is unchanged by a
broad tier that would have returned a different date. -/
theorem merge_monotonic_witness :
    Verifyparallel.mergeDate "1901-01-01" [] none = "1901-01-01" ∧
    (∀ (m' : List (String × String)) (loc' : Option String),
      Verifyparallel.mergeDate DEFAULT_DATE m' loc' = Verifyparallel.getOrDefault m' loc') ∧
    Verifyparallel.finalDate [("Loc A", "1901-01-01")] [("Loc A", "1999-09-09")]
        ⟨some "Loc A", DEFAULT_DATE⟩ =
      Verifyparallel.narrowWikiDate [("Loc A", "1901-01-01")] ⟨some "Loc A", DEFAULT_DATE⟩ :=
  merge_monotonic "1901-01-01" [] [("Loc A", "1901-01-01")] [("Loc A", "1999-09-09")] none
    ⟨some "Loc A", DEFAULT_DATE⟩ (by decide) (by decide)

theorem countKey_append (k : String) (a b : List String) :
    Verifyparallel.countKey k (a ++ b) =
      Verifyparallel.countKey k a + Verifyparallel.countKey k b := by
  induction a with
  | nil => simp [Verifyparallel.countKey]
  | cons x xs ih =>
    have ih' : Verifyparallel.countKey k (xs.append b) =
        Verifyparallel.countKey k xs + Verifyparallel.countKey k b := ih
    simp only [List.cons_append, Verifyparallel.countKey]
    rw [ih']
    omega

/-- A cache hit returns the cached value, leaves the cache unchanged, and
issues no external query (narrow lookup). -/
theorem narrow_hit (env : Verifyparallel.WikiEnv) (cache : List (String × String))
    (k v : String) (h : Verifyparallel.lookupD cache k = some v) :
    Verifyparallel.narrow_wikipedia_lookup_one env cache k = (v, cache, []) := by
  unfold Verifyparallel.narrow_wikipedia_lookup_one
  rw [h]

/-- A cache hit returns the cached value, leaves the cache unchanged, and
issues no external query (broad lookup). -/
theorem broad_hit (env : Verifyparallel.WikiEnv) (cache : List (String × String))
    (k v : String) (h : Verifyparallel.lookupD cache k = some v) :
    Verifyparallel.broad_wikipedia_lookup_one env cache k = (v, cache, []) := by
  unfold Verifyparallel.broad_wikipedia_lookup_one
  rw [h]

/-- After any narrow lookup, the cache maps the key to the returned value. -/
theorem narrow_cache_hit_after (env : Verifyparallel.WikiEnv)
    (cache : List (String × String)) (k : String) :
    Verifyparallel.lookupD (Verifyparallel.narrow_wikipedia_lookup_one env cache k).2.1 k =
      some (Verifyparallel.narrow_wikipedia_lookup_one env cache k).1 := by
  unfold Verifyparallel.narrow_wikipedia_lookup_one
  cases h : Verifyparallel.lookupD cache k with
  | some v => simp [h]
  | none =>
    cases hr : (Verifyparallel.collectNarrow env
        (Verifyparallel.generate_narrow_search_terms k)).1 with
    | nil => simp [h, hr, Verifyparallel.lookupD]
    | cons p ps => simp [h, hr, Verifyparallel.lookupD]

/-- After any broad lookup, the cache maps the key to the returned value. -/
theorem broad_cache_hit_after (env : Verifyparallel.WikiEnv)
    (cache : List (String × String)) (k : String) :
    Verifyparallel.lookupD (Verifyparallel.broad_wikipedia_lookup_one env cache k).2.1 k =
      some (Verifyparallel.broad_wikipedia_lookup_one env cache k).1 := by
  unfold Verifyparallel.broad_wikipedia_lookup_one
  cases h : Verifyparallel.lookupD cache k with
  | some v => simp [h]
  | none =>
    simp only [h]
    split
    · simp [Verifyparallel.lookupD]
    · simp [Verifyparallel.lookupD]

/-- A narrow lookup for any key preserves existing cache bindings. -/
theorem narrow_preserve (env : Verifyparallel.WikiEnv) (cache : List (String × String))
    (k k' v : String) (h : Verifyparallel.lookupD cache k = some v) :
    Verifyparallel.lookupD (Verifyparallel.narrow_wikipedia_lookup_one env cache k').2.1 k =
      some v := by
  unfold Verifyparallel.narrow_wikipedia_lookup_one
  cases hh : Verifyparallel.lookupD cache k' with
  | some w => simpa [hh] using h
  | none =>
    have hne : k' ≠ k := by
      intro he
      rw [he] at hh
      rw [hh] at h
      cases h
    cases hr : (Verifyparallel.collectNarrow env
        (Verifyparallel.generate_narrow_search_terms k')).1 with
    | nil => simpa [hh, hr, Verifyparallel.lookupD, hne] using h
    | cons p ps => simpa [hh, hr, Verifyparallel.lookupD, hne] using h

/-- No key in an already-cached state is ever looked up externally during a
tier run. -/
theorem tier_count_zero (env : Verifyparallel.WikiEnv) (ks : List String) :
    ∀ (cache : List (String × String)) (k v : String),
      Verifyparallel.lookupD cache k = some v →
      Verifyparallel.countKey k (Verifyparallel.run_narrow_tier env ks cache).2.2 = 0 := by
  induction ks with
  | nil => intro cache k v _; simp [Verifyparallel.run_narrow_tier, Verifyparallel.countKey]
  | cons k' ks ih =>
    intro cache k v h
    unfold Verifyparallel.run_narrow_tier
    rw [countKey_append]
    by_cases he : k' = k
    · subst he
      rw [narrow_hit env cache k' v h]
      simpa [Verifyparallel.countKey] using ih cache k' v h
    · have h1 : Verifyparallel.countKey k
          (if (Verifyparallel.narrow_wikipedia_lookup_one env cache k').2.2.isEmpty
           then [] else [k']) = 0 := by
        split
        · simp [Verifyparallel.countKey]
        · simp [Verifyparallel.countKey, he]
      rw [h1]
      simpa using ih _ k v (narrow_preserve env cache k k' v h)

/-- During one tier run the external source is consulted at most once per
key, whatever the initial cache. -/
theorem tier_count_le_one (env : Verifyparallel.WikiEnv) (ks : List String) :
    ∀ (cache : List (String × String)) (k : String),
      Verifyparallel.countKey k (Verifyparallel.run_narrow_tier env ks cache).2.2 ≤ 1 := by
  induction ks with
  | nil => intro cache k; simp [Verifyparallel.run_narrow_tier, Verifyparallel.countKey]
  | cons k' ks ih =>
    intro cache k
    unfold Verifyparallel.run_narrow_tier
    rw [countKey_append]
    by_cases he : k' = k
    · subst he
      have hzero := tier_count_zero env ks
        (Verifyparallel.narrow_wikipedia_lookup_one env cache k').2.1 k'
        (Verifyparallel.narrow_wikipedia_lookup_one env cache k').1
        (narrow_cache_hit_after env cache k')
      rw [hzero]
      split
      · simp [Verifyparallel.countKey]
      · simp [Verifyparallel.countKey]
    · have h1 : Verifyparallel.countKey k
          (if (Verifyparallel.narrow_wikipedia_lookup_one env cache k').2.2.isEmpty
           then [] else [k']) = 0 := by
        split
        · simp [Verifyparallel.countKey]
        · simp [Verifyparallel.countKey, he]
      rw [h1]
      simpa using ih _ k

/-- A key cached before a tier run receives exactly its cached value in the
tier's results map. -/
theorem tier_result_cached (env : Verifyparallel.WikiEnv) (ks : List String) :
    ∀ (cache : List (String × String)) (k v : String),
      Verifyparallel.lookupD cache k = some v → k ∈ ks →
      Verifyparallel.lookupD (Verifyparallel.run_narrow_tier env ks cache).1 k = some v := by
  induction ks with
  | nil => intro cache k v _ hm; cases hm
  | cons k' ks ih =>
    intro cache k v h hm
    unfold Verifyparallel.run_narrow_tier
    by_cases he : k' = k
    · subst he
      rw [narrow_hit env cache k' v h]
      simp [Verifyparallel.lookupD]
    · have hm' : k ∈ ks := by
        rcases List.mem_cons.1 hm with rfl | hx
        · exact absurd rfl he
        · exact hx
      simp only [Verifyparallel.lookupD, if_neg he]
      exact ih _ k v (narrow_preserve env cache k k' v h) hm'

/-- C4: cache single-invocation — during one (sequentialized) tier run the
external source is consulted at most once per key; a key already cached is
never consulted again (count zero), its tier result is the cached value,
and a single lookup on a cached key returns that value without issuing any
query. -/
theorem cache_single_invocation (env : Verifyparallel.WikiEnv) (keys : List String)
    (cache : List (String × String)) (k v : String)
    (h : Verifyparallel.lookupD cache k = some v) :
    (∀ (ks : List String) (c : List (String × String)) (k' : String),
      Verifyparallel.countKey k' (Verifyparallel.run_narrow_tier env ks c).2.2 ≤ 1) ∧
    Verifyparallel.countKey k (Verifyparallel.run_narrow_tier env keys cache).2.2 = 0 ∧
    (k ∈ keys →
      Verifyparallel.lookupD (Verifyparallel.run_narrow_tier env keys cache).1 k = some v) ∧
    Verifyparallel.narrow_wikipedia_lookup_one env cache k = (v, cache, []) :=
  ⟨fun ks c k' => tier_count_le_one env ks c k',
   tier_count_zero env keys cache k v h,
   fun hm => tier_result_cached env keys cache k v h hm,
   narrow_hit env cache k v h⟩

/-- Witness for C4: three rows, two sharing the key "k" which is already
cached. -/
theorem cache_single_invocation_witness :
    (∀ (ks : List String) (c : List (String × String)) (k' : String),
      Verifyparallel.countKey k'
        (Verifyparallel.run_narrow_tier envEmpty ks c).2.2 ≤ 1) ∧
    Verifyparallel.countKey "k"
      (Verifyparallel.run_narrow_tier envEmpty ["k", "k", "j"]
        [("k", "1850-01-01")]).2.2 = 0 ∧
    ("k" ∈ ["k", "k", "j"] →
      Verifyparallel.lookupD
        (Verifyparallel.run_narrow_tier envEmpty ["k", "k", "j"]
          [("k", "1850-01-01")]).1 "k" = some "1850-01-01") ∧
    Verifyparallel.narrow_wikipedia_lookup_one envEmpty [("k", "1850-01-01")] "k" =
      ("1850-01-01", [("k", "1850-01-01")], []) :=
  cache_single_invocation envEmpty ["k", "k", "j"] [("k", "1850-01-01")] "k" "1850-01-01" rfl

/-- C5: the broad (tier-2) lookup does NOT issue its generic search query
for keys the narrow adapter failed to resolve — the narrow failure cached
the sentinel, and the broad lookup returns that cached sentinel with zero
external queries, even in a world where its generic query would have
resolved the key (third conjunct: the same broad lookup on an empty cache
issues the query and finds 1901-02-03). -/
theorem broad_skips_narrow_failures :
    Verifyparallel.narrow_wikipedia_lookup_one envSpringfield [] "Springfield Township" =
      (DEFAULT_DATE, [("Springfield Township", DEFAULT_DATE)],
        Verifyparallel.generate_narrow_search_terms "Springfield Township") ∧
    Verifyparallel.broad_wikipedia_lookup_one envSpringfield
        [("Springfield Township", DEFAULT_DATE)] "Springfield Township" =
      (DEFAULT_DATE, [("Springfield Township", DEFAULT_DATE)], []) ∧
    Verifyparallel.broad_wikipedia_lookup_one envSpringfield [] "Springfield Township" =
      ("1901-02-03", [("Springfield Township", "1901-02-03")], ["Springfield Township"]) :=
  ⟨rfl, rfl, rfl⟩

theorem parallel_lookup_length (f : String → Except Unit String) (locs : List String) :
    (Verifyparallel.parallel_lookup f locs).length = locs.length := by
  induction locs with
  | nil => rfl
  | cons l ls ih => simp [Verifyparallel.parallel_lookup, ih]

theorem parallel_lookup_mem (f : String → Except Unit String) (locs : List String)
    (k : String) :
    k ∈ locs →
    Verifyparallel.lookupD (Verifyparallel.parallel_lookup f locs) k =
      some (match f k with
            | Except.ok v => v
            | Except.error _ => DEFAULT_DATE) := by
  induction locs with
  | nil => intro h; cases h
  | cons l ls ih =>
    intro h
    unfold Verifyparallel.parallel_lookup Verifyparallel.lookupD
    by_cases he : l = k
    · subst he
      simp
    · rw [if_neg he]
      refine ih ?_
      rcases List.mem_cons.1 h with rfl | hx
      · exact absurd rfl he
      · exact hx

/-- C9: per-key failure isolation — the scheduler's results map has an
entry for every submitted key, and each key's entry is its own lookup
result (or the sentinel exactly when its own lookup failed), independent of
any other key's failure; the batch always completes (one entry per
submitted key). -/
theorem parallel_failure_isolation (f : String → Except Unit String)
    (locs : List String) (k : String) (h : k ∈ locs) :
    Verifyparallel.lookupD (Verifyparallel.parallel_lookup f locs) k =
      some (match f k with
            | Except.ok v => v
            | Except.error _ => DEFAULT_DATE) ∧
    (Verifyparallel.parallel_lookup f locs).length = locs.length :=
  ⟨parallel_lookup_mem f locs k h, parallel_lookup_length f locs⟩

/-- Witness for C9: the key "bad" raises and maps to the sentinel while
"good" still receives its own result. -/
theorem parallel_failure_isolation_witness :
    Verifyparallel.lookupD (Verifyparallel.parallel_lookup lookupC9 ["bad", "good"]) "bad" =
      some DEFAULT_DATE ∧
    Verifyparallel.lookupD (Verifyparallel.parallel_lookup lookupC9 ["bad", "good"]) "good" =
      some "1902-03-04" ∧
    (Verifyparallel.parallel_lookup lookupC9 ["bad", "good"]).length = 2 := by
  have h1 := parallel_failure_isolation lookupC9 ["bad", "good"] "bad" (by simp)
  have h2 := parallel_failure_isolation lookupC9 ["bad", "good"] "good" (by simp)
  exact ⟨by simpa [lookupC9] using h1.1, by simpa [lookupC9] using h2.1, h1.2⟩

/-- C10: lookup idempotence through the cache — each lookup function stores
its outcome (resolved date or sentinel) under the key before returning, so
a repeated call with the same key returns exactly the first call's value,
leaves the cache unchanged, and issues no external query, whatever the
external source does on the second call (`env2` is arbitrary). -/
theorem lookup_idempotent (env env2 : Verifyparallel.WikiEnv)
    (cache : List (String × String)) (k : String) :
    Verifyparallel.narrow_wikipedia_lookup_one env2
        (Verifyparallel.narrow_wikipedia_lookup_one env cache k).2.1 k =
      ((Verifyparallel.narrow_wikipedia_lookup_one env cache k).1,
       (Verifyparallel.narrow_wikipedia_lookup_one env cache k).2.1, []) ∧
    Verifyparallel.broad_wikipedia_lookup_one env2
        (Verifyparallel.broad_wikipedia_lookup_one env cache k).2.1 k =
      ((Verifyparallel.broad_wikipedia_lookup_one env cache k).1,
       (Verifyparallel.broad_wikipedia_lookup_one env cache k).2.1, []) :=
  ⟨narrow_hit env2 _ k _ (narrow_cache_hit_after env cache k),
   broad_hit env2 _ k _ (broad_cache_hit_after env cache k)⟩
